import Mathlib

/-!
Shallow embedding of the Eric-Eklund/REST_API event-management service
(Go + Gin + SQLite), covering the parts exercised by the verified claims:
the SQLite-backed user/event/registration store, the bcrypt-based
credential check, JWT issuance and validation, the authentication
middleware, and the route handlers for signup, login and event CRUD.

Machine state is a `DB` record mirroring the three SQLite tables created
in the tests (`users`, `events`, `registrations`, with the unique-email
index, the `UNIQUE(event_id, user_id)` index and both foreign keys, and
`PRAGMA foreign_keys = ON` as in the test setup).  Handlers are pure
functions from the database and the decoded request to the new database
plus the ordered list of JSON writes they perform; the framework default
for a handler that writes nothing is an empty 200 response, and when a
handler writes twice the first status wins (the second `WriteHeader` is
ignored by net/http).
-/

namespace RestApi

/-- A row of the `users` table: `id INTEGER PRIMARY KEY AUTOINCREMENT`,
`email TEXT NOT NULL UNIQUE`, `password TEXT NOT NULL` (the bcrypt hash). -/
structure UserRow where
  id : Int
  email : String
  password : String
deriving DecidableEq, Repr

/-- A row of the `events` table, matching `models.Event`:
name, description, location, date_time (modelled as a unix timestamp),
and `user_id` with `FOREIGN KEY(user_id) REFERENCES users(id)`. -/
structure EventRow where
  id : Int
  name : String
  description : String
  location : String
  dateTime : Int
  userId : Int
deriving DecidableEq, Repr

/-- A row of the `registrations` table: the `(event_id, user_id)` join
pair, subject to `UNIQUE(event_id, user_id)` and two foreign keys. -/
structure RegRow where
  eventId : Int
  userId : Int
deriving DecidableEq, Repr

/-- The SQLite database state: the three tables plus the AUTOINCREMENT
counters that assign fresh row ids. -/
structure DB where
  users : List UserRow
  events : List EventRow
  regs : List RegRow
  nextUserId : Int
  nextEventId : Int
deriving DecidableEq, Repr

/-- The two constraint failures SQLite reports for the statements this
code issues: a UNIQUE-index violation and a FOREIGN-KEY violation.
They surface as distinct error values of the sqlite3 driver. -/
inductive SqlErr where
  | uniqueViolation
  | fkViolation
deriving DecidableEq, Repr

/-- Whether a `users` row with the given id exists. -/
def userExists (db : DB) (uid : Int) : Bool :=
  db.users.any (fun u => u.id == uid)

/-- Whether an `events` row with the given id exists. -/
def eventExists (db : DB) (eid : Int) : Bool :=
  db.events.any (fun e => e.id == eid)

/-- Whether the `(eventId, userId)` pair is present in `registrations`. -/
def regExists (db : DB) (eid uid : Int) : Bool :=
  db.regs.any (fun r => r.eventId == eid && r.userId == uid)

/-- `INSERT INTO users (email, password) VALUES (?, ?)`: fails on the
unique-email index, otherwise appends the row with the next
AUTOINCREMENT id and returns that id (`LastInsertId`). -/
def usersInsert (db : DB) (email hash : String) : Except SqlErr (DB × Int) :=
  if db.users.any (fun u => u.email == email) then .error .uniqueViolation
  else
    let uid := db.nextUserId
    .ok ({ db with users := db.users ++ [⟨uid, email, hash⟩], nextUserId := uid + 1 }, uid)

/-- `SELECT password FROM users WHERE email = ?` followed by `row.Scan`:
`none` models the `sql.ErrNoRows` scan error. -/
def selectPasswordByEmail (db : DB) (email : String) : Option String :=
  (db.users.find? (fun u => u.email == email)).map (fun u => u.password)

/-- `INSERT INTO events (...) VALUES (?, ?, ?, ?, ?)`: with
`PRAGMA foreign_keys = ON`, inserting a `user_id` that matches no users
row is a foreign-key violation; otherwise the row is appended under the
next AUTOINCREMENT id, which is returned (`LastInsertId`). -/
def eventsInsert (db : DB) (e : EventRow) : Except SqlErr (DB × Int) :=
  if !(userExists db e.userId) then .error .fkViolation
  else
    let eid := db.nextEventId
    .ok ({ db with events := db.events ++ [{ e with id := eid }], nextEventId := eid + 1 }, eid)

/-- `UPDATE events SET name = ?, ..., user_id = ? WHERE id = ?`: the
foreign-key check fires only when a row is actually updated; updating a
nonexistent id affects zero rows and is not an error. -/
def eventsUpdate (db : DB) (e : EventRow) : Except SqlErr DB :=
  if eventExists db e.id && !(userExists db e.userId) then .error .fkViolation
  else .ok { db with
    events := db.events.map (fun r => if r.id == e.id then { e with id := r.id } else r) }

/-- `DELETE FROM events WHERE id = ?`: deleting an id that does not
exist affects zero rows and succeeds; deleting a row still referenced
from `registrations` violates that foreign key. -/
def eventsDelete (db : DB) (eid : Int) : Except SqlErr DB :=
  if db.regs.any (fun r => r.eventId == eid) then .error .fkViolation
  else .ok { db with events := db.events.filter (fun r => !(r.id == eid)) }

/-- `INSERT INTO registrations (event_id, user_id) VALUES (?, ?)`:
fails with a foreign-key violation when either id is absent, and with a
UNIQUE-index violation when the pair is already registered. -/
def regsInsert (db : DB) (eid uid : Int) : Except SqlErr DB :=
  if !(eventExists db eid) || !(userExists db uid) then .error .fkViolation
  else if regExists db eid uid then .error .uniqueViolation
  else .ok { db with regs := db.regs ++ [⟨eid, uid⟩] }

/-- `DELETE FROM registrations WHERE event_id = ? AND user_id = ?`:
removing an absent pair affects zero rows and succeeds. -/
def regsDelete (db : DB) (eid uid : Int) : Except SqlErr DB :=
  .ok { db with regs := db.regs.filter (fun r => !(r.eventId == eid && r.userId == uid)) }

/-- Modelled from the spec: `crypto.HashPassword` (the file
`crypto/hash.go` is not under src/; only its callers and the spec
describe it).  Spec 4.1/4.3: a one-way adaptive hash whose generation
fails only as a save failure, and the store rejects an empty password via
a hash-time failure.  The model is injective in the plaintext, which is
all `verify` below observes. -/
def HashPassword (p : String) : Except String String :=
  if p == "" then .error "password must not be empty"
  else .ok ("bcrypt$" ++ p)

/-- Modelled from the spec: `crypto.CheckPasswordHash`
(`verify(plaintext, hashedForm) -> bool`): true exactly when the stored
hash was produced from this plaintext. -/
def CheckPasswordHash (p h : String) : Bool :=
  h == "bcrypt$" ++ p

/-- `models.User`: the JSON-bound identity record.  `ID` has no json
tag and is the Go zero value 0 after binding a login or signup body. -/
structure User where
  id : Int
  email : String
  password : String
deriving DecidableEq, Repr

/-- `models.User.Save`: hash the password, insert the row, then set
`u.ID` from `LastInsertId`.  Errors from hashing or the insert are
returned as-is. -/
def User.Save (db : DB) (u : User) : Except String (DB × User) :=
  match HashPassword u.password with
  | .error e => .error e
  | .ok hash =>
    match usersInsert db u.email hash with
    | .error _ => .error "constraint failed"
    | .ok (db2, uid) => .ok (db2, { u with id := uid })

/-- `models.User.ValidateCredentials`: look up the stored hash by email
and compare.  Both the failed row scan and the failed comparison return
the same `invalid credentials` error.  On success the receiver is
returned unchanged: the source never assigns `u.ID`. -/
def User.ValidateCredentials (db : DB) (u : User) : Except String User :=
  match selectPasswordByEmail db u.email with
  | none => .error "invalid credentials"
  | some retrieved =>
    if !(CheckPasswordHash u.password retrieved) then .error "invalid credentials"
    else .ok u

/-- `models.Event.Save`. -/
def EventRow.Save (db : DB) (e : EventRow) : Except SqlErr (DB × EventRow) :=
  match eventsInsert db e with
  | .error err => .error err
  | .ok (db2, eid) => .ok (db2, { e with id := eid })

/-- `models.Event.Update`. -/
def EventRow.Update (db : DB) (e : EventRow) : Except SqlErr DB :=
  eventsUpdate db e

/-- `models.Event.Delete`. -/
def EventRow.Delete (db : DB) (e : EventRow) : Except SqlErr DB :=
  eventsDelete db e.id

/-- `models.GetEventByID`: `SELECT * FROM events WHERE id = ?` with a
row scan; `none` models the not-found scan error. -/
def GetEventByID (db : DB) (eid : Int) : Option EventRow :=
  db.events.find? (fun r => r.id == eid)

/-- Modelled from the spec: `models.Event.Register` is not under src/
(only `models/event_test.go` and `routes/register.go` reference it).
Spec 4.4: `register(eventId, userId)` fails if either id does not exist
or if the pair already exists (`DuplicateRegistration`); it is the
insert into `registrations` whose constraints the test schema declares. -/
def EventRow.Register (db : DB) (e : EventRow) (uid : Int) : Except SqlErr DB :=
  regsInsert db e.id uid

/-- Modelled from the spec: `models.Event.Unregister` is not under src/.
Spec 4.4: `unregister(eventId, userId)` is a no-op success if the pair
does not exist. -/
def EventRow.Unregister (db : DB) (e : EventRow) (uid : Int) : Except SqlErr DB :=
  regsDelete db e.id uid

/-- The signing algorithm named in a JWT header.  The keyfunc in
`auth.ValidateToken` accepts exactly the HMAC family; `hs256` is its
member used by `GenerateToken`, the others stand for RSA and for the
unsigned `none` algorithm. -/
inductive Alg where
  | hs256
  | algNone
  | rs256
deriving DecidableEq, Repr

/-- A JSON claim value as decoded by the jwt library into `MapClaims`
(numbers and strings are the shapes this code can meet). -/
inductive ClaimVal where
  | num (n : Int)
  | str (s : String)
deriving DecidableEq, Repr

/-- A decoded JWT: header algorithm, the `email`, `id` and `exp` claims
(each possibly absent), and the key under which the signature verifies
(`sigKey = secretKey` models an intact signature by this service). -/
structure Token where
  alg : Alg
  email : Option ClaimVal
  idClaim : Option ClaimVal
  exp : Option Int
  sigKey : String
deriving DecidableEq, Repr

/-- `auth.secretKey`. -/
def secretKey : String := "superSecretKey"

/-- `auth.GenerateToken`: an HS256 token over `{email, id,
exp = now + 12h}` signed with the process secret. -/
def GenerateToken (email : String) (userId : Int) (now : Int) : Token :=
  { alg := .hs256
    email := some (.str email)
    idClaim := some (.num userId)
    exp := some (now + 12 * 3600)
    sigKey := secretKey }

/-- The raw `Authorization` header value handed to `jwt.Parse`: either
a string that does not decode as a JWT at all, or a decoded token. -/
inductive TokenInput where
  | malformed
  | parsed (t : Token)
deriving DecidableEq, Repr

/-- The observable outcome of `auth.ValidateToken`: the extracted user
id, an error, or a Go runtime panic. -/
inductive VResult where
  | ok (userId : Int)
  | err (msg : String)
  | panicked
deriving DecidableEq, Repr

/-- The jwt/v5 expiry validation on `MapClaims`: when an `exp` claim is
present the token is valid only while `now` is strictly before it; a
token without `exp` is not checked for expiry. -/
def tokenExpired (t : Token) (now : Int) : Bool :=
  match t.exp with
  | some e => decide (e ≤ now)
  | none => false

/-- `auth.ValidateToken`: `jwt.Parse` with a keyfunc that rejects any
non-HMAC method; parse errors (bad decode, wrong algorithm, bad
signature, expired claims) all collapse to the `invalid token` error,
as does an invalid parsed token.  The final
`claims["id"].(float64)` is an unchecked Go type assertion: on a
parsed-valid token whose `id` claim is absent or non-numeric it
panics instead of returning. -/
def ValidateToken (input : TokenInput) (now : Int) : VResult :=
  match input with
  | .malformed => .err "invalid token"
  | .parsed t =>
    if !(t.alg == .hs256) then .err "invalid token"
    else if !(t.sigKey == secretKey) then .err "invalid token"
    else if tokenExpired t now then .err "invalid token"
    else
      match t.idClaim with
      | some (.num n) => .ok n
      | _ => .panicked

/-- The outcome of the `auth.Authenticate` middleware for one request:
abort with 401, propagate a panic, or bind the user id into the request
context and invoke the next handler. -/
inductive AuthOutcome where
  | rejected401
  | panicked
  | passed (userId : Int)
deriving DecidableEq, Repr

/-- `auth.Authenticate`: read the raw `Authorization` header (`none`
models the empty header), abort 401 when it is empty, validate it,
abort 401 on a validation error, and otherwise set `userId` in the
context and call `c.Next()`. -/
def Authenticate (header : Option TokenInput) (now : Int) : AuthOutcome :=
  match header with
  | none => .rejected401
  | some input =>
    match ValidateToken input now with
    | .ok uid => .passed uid
    | .err _ => .rejected401
    | .panicked => .panicked

/-- One JSON body written by a handler through `c.JSON`. -/
inductive Body where
  | msg (s : String)
  | err (s : String)
  | ev (e : EventRow)
  | msgToken (s : String) (t : Token)
deriving DecidableEq, Repr

/-- A `c.JSON(status, body)` call. -/
abbrev Write := Nat × Body

/-- The status the client observes: the first written status wins
(net/http ignores a second `WriteHeader`), and a handler that writes
nothing leaves the framework default 200. -/
def finalStatus (ws : List Write) : Nat :=
  match ws with
  | [] => 200
  | w :: _ => w.1

/-- The outcome of `c.ShouldBindJSON(&event)`: `malformed` is a JSON
decode failure (the struct keeps its zero value), `invalid e` is a
decoded struct `e` that fails the `binding:"required"` validation
(fields present in the JSON are already populated), and `valid e`
binds successfully.  `user_id` carries no required tag, so a body that
omits it still binds with the zero value 0. -/
inductive EventBind where
  | malformed
  | invalid (e : EventRow)
  | valid (e : EventRow)
deriving DecidableEq, Repr

/-- The zero value of `models.Event`. -/
def zeroEvent : EventRow :=
  { id := 0, name := "", description := "", location := "", dateTime := 0, userId := 0 }

/-- `routes.signup`: bind the user body (400 on failure), save (500 on
failure), else 201. -/
def signup (db : DB) (body : Option User) : DB × List Write :=
  match body with
  | none => (db, [(400, .err "Invalid user data")])
  | some u =>
    match u.Save db with
    | .error _ => (db, [(500, .err "User could not be saved")])
    | .ok (db2, _) => (db2, [(201, .msg "User created successfully")])

/-- `routes.login` (the token-issuing version wired into
`RegisterRoutes`): bind (400), validate credentials (401 with the fixed
`Invalid credentials` message on any error), then issue a token for
`user.Email` and `user.ID` as left by `ValidateCredentials`. -/
def login (db : DB) (now : Int) (body : Option User) : List Write :=
  match body with
  | none => [(400, .err "Invalid user data")]
  | some u =>
    match u.ValidateCredentials db with
    | .error _ => [(401, .err "Invalid credentials")]
    | .ok u2 => [(200, .msgToken "User logged in successfully" (GenerateToken u2.email u2.id now))]

/-- `routes.createEvent`: bind (400 on failure, with return), overwrite
`event.UserID` with the context `userId`, save (500 on failure), else
201 with the saved event. -/
def createEvent (db : DB) (callerId : Int) (body : EventBind) : DB × List Write :=
  match body with
  | .malformed => (db, [(400, .err "Invalid event data")])
  | .invalid _ => (db, [(400, .err "Invalid event data")])
  | .valid e =>
    let e2 := { e with userId := callerId }
    match e2.Save db with
    | .error _ => (db, [(500, .err "Event could not be created")])
    | .ok (db2, saved) => (db2, [(201, .ev saved)])

/-- `routes.updateEvents`: parse the id (400), load the event (500
`Event not found`), compare owners (401 `Unauthorized`), then bind the
body.  The bind-failure branch writes 400 but is missing a `return`, so
the handler falls through and still runs `updatedEvent.Update()` on
whatever the bind left in the struct, with only the id overwritten from
the path. -/
def updateEvents (db : DB) (idParam : Option Int) (callerId : Int) (body : EventBind) :
    DB × List Write :=
  match idParam with
  | none => (db, [(400, .err "Invalid event ID")])
  | some id =>
    match GetEventByID db id with
    | none => (db, [(500, .err "Event not found")])
    | some ev =>
      if !(ev.userId == callerId) then (db, [(401, .err "Unauthorized")])
      else
        let bound : EventRow × Bool :=
          match body with
          | .malformed => (zeroEvent, true)
          | .invalid e => (e, true)
          | .valid e => (e, false)
        let pre : List Write := if bound.2 then [(400, .err "Invalid event data")] else []
        match EventRow.Update db { bound.1 with id := id } with
        | .error _ => (db, pre ++ [(500, .err "Event could not be updated")])
        | .ok db2 => (db2, pre ++ [(200, .msg "Event updated successfully")])

/-- `routes.deleteEvent`: parse the id (400), load the event — on a
failed lookup the handler does a bare `return`, writing nothing at all —
compare owners (401 `Unauthorized`), delete (500 on failure), else
200. -/
def deleteEvent (db : DB) (idParam : Option Int) (callerId : Int) : DB × List Write :=
  match idParam with
  | none => (db, [(400, .err "Invalid event ID")])
  | some id =>
    match GetEventByID db id with
    | none => (db, [])
    | some ev =>
      if !(ev.userId == callerId) then (db, [(401, .err "Unauthorized")])
      else
        match ev.Delete db with
        | .error _ => (db, [(500, .err "Event could not be deleted")])
        | .ok db2 => (db2, [(200, .msg "Event deleted successfully")])

/-- `routes.registerEvent`: parse the id (400), load the event (500
`Event not found`), register the caller (500 on failure), else 201. -/
def registerEvent (db : DB) (idParam : Option Int) (callerId : Int) : DB × List Write :=
  match idParam with
  | none => (db, [(400, .err "Invalid event ID")])
  | some id =>
    match GetEventByID db id with
    | none => (db, [(500, .err "Event not found")])
    | some ev =>
      match ev.Register db callerId with
      | .error _ => (db, [(500, .err "Event could not be registered")])
      | .ok db2 => (db2, [(201, .msg "Event registered successfully")])

/-! ### Concrete fixtures used by the closed theorems and witnesses -/

/-- A fresh database (the state after schema creation). -/
def dbEmpty : DB := { users := [], events := [], regs := [], nextUserId := 1, nextEventId := 1 }

/-- The signup/login request body of the spec scenario:
`{email: "a@x.com", password: "p1"}` (the unbound `ID` is the Go zero
value 0). -/
def aliceReq : User := { id := 0, email := "a@x.com", password := "p1" }

/-- The `POST /events` body of the spec scenario. -/
def eventReqBody : EventRow :=
  { id := 0, name := "E", description := "d", location := "l", dateTime := 1000, userId := 0 }

/-- A store holding users 1 and 2 and event 1 owned by user 1. -/
def dbTwoUsers : DB :=
  { users := [{ id := 1, email := "u1@x.com", password := "bcrypt$pw1" },
              { id := 2, email := "u2@x.com", password := "bcrypt$pw2" }]
    events := [{ id := 1, name := "E", description := "d", location := "l",
                 dateTime := 1000, userId := 1 }]
    regs := []
    nextUserId := 3
    nextEventId := 2 }

/-- The stored event of `dbTwoUsers`. -/
def storedEvent1 : EventRow :=
  { id := 1, name := "E", description := "d", location := "l", dateTime := 1000, userId := 1 }

/-- A decoded `PUT /events/1` body that failed required-field validation
(valid JSON carrying `name` and `user_id` but missing the other required
fields, so the bound struct keeps their zero values). -/
def invalidUpdateBody : EventRow :=
  { id := 0, name := "Hacked", description := "", location := "", dateTime := 0, userId := 1 }

/-- A well-signed, unexpired HS256 token (no `exp` claim) that carries
no `id` claim: anyone can mint it because the signing secret is the
hard-coded string in the source. -/
def noIdToken : Token :=
  { alg := .hs256, email := some (.str "a@x.com"), idClaim := none, exp := none,
    sigKey := secretKey }

/-- A valid `PUT /events/1` body sent by owner 1 that names user 2 (an
existing user) in its `user_id` field. -/
def bodyOwner2 : EventRow :=
  { id := 0, name := "N", description := "D", location := "L", dateTime := 2000, userId := 2 }

/-- `dbTwoUsers` after event 1 is replaced by `bodyOwner2` (owner now
user 2). -/
def dbTwoUsersUpdated : DB :=
  { users := dbTwoUsers.users
    events := [{ id := 1, name := "N", description := "D", location := "L",
                 dateTime := 2000, userId := 2 }]
    regs := []
    nextUserId := 3
    nextEventId := 2 }

/-! ### Theorems -/

/-- C1: the claim says the token returned by login embeds the signed-up
user's store-assigned id, so that `POST /events` creates an event owned
by that user.  Evaluating the code at the scenario input refutes this:
signup assigns id 1, but `ValidateCredentials` never loads the id, so
login signs a token whose `id` claim is 0; the middleware then binds
caller 0 and event creation runs with owner 0, which fails the
foreign key instead of producing `ownerUserId = 1`. -/
theorem c1_login_token_embeds_zero_id :
    (signup dbEmpty (some aliceReq)).2 = [(201, .msg "User created successfully")] ∧
    ((signup dbEmpty (some aliceReq)).1.users.map UserRow.id) = [1] ∧
    login (signup dbEmpty (some aliceReq)).1 5000 (some aliceReq)
      = [(200, .msgToken "User logged in successfully" (GenerateToken "a@x.com" 0 5000))] ∧
    (GenerateToken "a@x.com" 0 5000).idClaim = some (.num 0) ∧
    Authenticate (some (.parsed (GenerateToken "a@x.com" 0 5000))) 5000 = .passed 0 ∧
    (createEvent (signup dbEmpty (some aliceReq)).1 0 (.valid eventReqBody)).2
      = [(500, .err "Event could not be created")] := by
  decide

/-- C2 counterexample: the claim says an owner mismatch on
`PUT /events/:id` or `DELETE /events/:id` is rejected with 403
Forbidden.  At a concrete store (event 1 owned by user 1) a request by
caller 2 is rejected with status 401, not 403, by both handlers. -/
theorem c2_counterexample_status_is_401_not_403 :
    finalStatus (updateEvents dbTwoUsers (some 1) 2 (.valid eventReqBody)).2 = 401 ∧
    finalStatus (deleteEvent dbTwoUsers (some 1) 2).2 = 401 ∧
    (401 : Nat) ≠ 403 := by
  decide

/-- C2 amended: for every authenticated `PUT /events/:id` or
`DELETE /events/:id` where the stored event's owner differs from the
bound caller, the handler rejects with 401 Unauthorized (the fixed
`Unauthorized` error body), before reading or applying the request
body: the response and the database are the same for every body. -/
theorem c2_non_owner_rejected_before_body (db : DB) (id callerId : Int) (ev : EventRow)
    (body : EventBind) (hget : GetEventByID db id = some ev)
    (hne : ev.userId ≠ callerId) :
    updateEvents db (some id) callerId body = (db, [(401, .err "Unauthorized")]) ∧
    deleteEvent db (some id) callerId = (db, [(401, .err "Unauthorized")]) := by
  have hbeq : (ev.userId == callerId) = false := by
    simp [hne]
  constructor
  · simp [updateEvents, hget, hbeq]
  · simp [deleteEvent, hget, hbeq]

/-- C2 witness: instantiating the amended theorem at `dbTwoUsers`,
event 1 (owner 1), caller 2. -/
theorem c2_witness :
    updateEvents dbTwoUsers (some 1) 2 .malformed
      = (dbTwoUsers, [(401, .err "Unauthorized")]) ∧
    deleteEvent dbTwoUsers (some 1) 2
      = (dbTwoUsers, [(401, .err "Unauthorized")]) :=
  c2_non_owner_rejected_before_body dbTwoUsers 1 2 storedEvent1 .malformed
    (by decide) (by decide)

/-- C3: the claim says a `PUT /events/:id` by the owner with a body
that fails validation responds 400 and leaves the stored event
unchanged.  The missing `return` after the 400 write refutes the second
half: on a decoded body that fails required-field validation but
carries an existing `user_id`, the handler still runs the update, and
the stored event is replaced by the partially-bound struct. -/
theorem c3_invalid_body_still_updates :
    finalStatus (updateEvents dbTwoUsers (some 1) 1 (.invalid invalidUpdateBody)).2 = 400 ∧
    (updateEvents dbTwoUsers (some 1) 1 (.invalid invalidUpdateBody)).1.events
      = [{ invalidUpdateBody with id := 1 }] ∧
    (updateEvents dbTwoUsers (some 1) 1 (.invalid invalidUpdateBody)).1.events
      ≠ dbTwoUsers.events := by
  decide

/-- C4: the claim says every failing input to `ValidateToken` yields
the single opaque `invalid token` error and the function never panics.
Evaluating the code at a well-signed, unexpired HS256 token without an
`id` claim refutes it: the unchecked `claims["id"].(float64)` type
assertion panics instead of returning the error.  (Every earlier check
does collapse to `invalid token`, as the wrong-algorithm and expired
conjuncts show.) -/
theorem c4_missing_id_claim_panics :
    ValidateToken (.parsed noIdToken) 0 = .panicked ∧
    VResult.panicked ≠ .err "invalid token" ∧
    ValidateToken (.parsed { noIdToken with alg := .rs256 }) 0 = .err "invalid token" ∧
    ValidateToken (.parsed { noIdToken with alg := .algNone }) 0 = .err "invalid token" ∧
    ValidateToken (.parsed { noIdToken with sigKey := "other" }) 0 = .err "invalid token" ∧
    ValidateToken (.parsed { noIdToken with exp := some 0 }) 7 = .err "invalid token" ∧
    ValidateToken .malformed 0 = .err "invalid token" := by
  decide

/-- C5 counterexample: the claim says that whenever the header is
missing or `ValidateToken` does not succeed, the middleware responds
401 and short-circuits.  On a well-signed token without an `id` claim,
`ValidateToken` does not succeed, yet the middleware outcome is a
propagated panic, not the 401 rejection. -/
theorem c5_counterexample_panic_not_401 :
    Authenticate (some (.parsed noIdToken)) 0 = .panicked ∧
    AuthOutcome.panicked ≠ .rejected401 := by
  decide

/-- C5 amended: the route handler runs only if the `Authorization`
header is non-empty and `ValidateToken` succeeds on its value, and then
the middleware has bound exactly the resolved user id; when the header
is empty or `ValidateToken` returns an error, the middleware responds
401 and short-circuits; but when `ValidateToken` panics (a well-signed
unexpired token without a numeric `id` claim) the middleware propagates
the panic and writes no 401. -/
theorem c5_middleware_gate (header : Option TokenInput) (now : Int) :
    (∀ uid, Authenticate header now = .passed uid →
      ∃ input, header = some input ∧ ValidateToken input now = .ok uid) ∧
    (header = none → Authenticate header now = .rejected401) ∧
    (∀ input msg, header = some input → ValidateToken input now = .err msg →
      Authenticate header now = .rejected401) ∧
    (∀ input uid, header = some input → ValidateToken input now = .ok uid →
      Authenticate header now = .passed uid) ∧
    (∀ input, header = some input → ValidateToken input now = .panicked →
      Authenticate header now = .panicked) := by
  refine ⟨?_, ?_, ?_, ?_, ?_⟩
  · intro uid hpass
    cases header with
    | none => simp [Authenticate] at hpass
    | some input =>
      refine ⟨input, rfl, ?_⟩
      revert hpass
      simp only [Authenticate]
      cases ValidateToken input now <;> simp
  · intro h
    subst h
    rfl
  · intro input msg h hv
    subst h
    simp [Authenticate, hv]
  · intro input uid h hv
    subst h
    simp [Authenticate, hv]
  · intro input h hv
    subst h
    simp [Authenticate, hv]

/-- C5 witness: the amended theorem applied at concrete headers — the
empty header is rejected 401, and a freshly issued token for user 7
passes with exactly id 7 bound. -/
theorem c5_witness :
    Authenticate none 0 = .rejected401 ∧
    Authenticate (some (.parsed (GenerateToken "a@x.com" 7 0))) 100 = .passed 7 :=
  ⟨(c5_middleware_gate none 0).2.1 rfl,
   (c5_middleware_gate (some (.parsed (GenerateToken "a@x.com" 7 0))) 100).2.2.2.1
     (.parsed (GenerateToken "a@x.com" 7 0)) 7 rfl (by decide)⟩

/-- C6: a token issued by `GenerateToken` embeds an expiry of issue
time plus 12 hours; `ValidateToken` on that token returns the embedded
user id at every time strictly before the expiry, and fails with the
single `invalid token` error once the expiry timestamp has elapsed. -/
theorem c6_issue_validate_roundtrip (email : String) (uid t0 t : Int) :
    (GenerateToken email uid t0).exp = some (t0 + 12 * 3600) ∧
    (t < t0 + 12 * 3600 →
      ValidateToken (.parsed (GenerateToken email uid t0)) t = .ok uid) ∧
    (t0 + 12 * 3600 ≤ t →
      ValidateToken (.parsed (GenerateToken email uid t0)) t = .err "invalid token") := by
  refine ⟨rfl, ?_, ?_⟩
  · intro hlt
    simp only [ValidateToken, GenerateToken, tokenExpired, secretKey]
    simp only [beq_self_eq_true, Bool.not_true, Bool.false_eq_true, if_false, decide_eq_true_eq]
    rw [if_neg (by omega)]
  · intro hle
    simp only [ValidateToken, GenerateToken, tokenExpired, secretKey]
    simp only [beq_self_eq_true, Bool.not_true, Bool.false_eq_true, if_false, decide_eq_true_eq]
    rw [if_pos (by omega)]

/-- C6 witness: the round-trip theorem applied for user 42 at issue
time 0, validated at time 100 (before expiry) and at the expiry
timestamp 43200. -/
theorem c6_witness :
    ValidateToken (.parsed (GenerateToken "a@x.com" 42 0)) 100 = .ok 42 ∧
    ValidateToken (.parsed (GenerateToken "a@x.com" 42 0)) 43200 = .err "invalid token" :=
  ⟨(c6_issue_validate_roundtrip "a@x.com" 42 0 100).2.1 (by norm_num),
   (c6_issue_validate_roundtrip "a@x.com" 42 0 43200).2.2 (by norm_num)⟩

/-- C7: whenever credential validation fails — because the email
matches no stored row, or because the stored hash does not verify
against the supplied password — `ValidateCredentials` returns the one
generic `invalid credentials` error, and the login endpoint responds
401 with the fixed `Invalid credentials` body; the two causes are
indistinguishable in both results. -/
theorem c7_invalid_credentials_indistinguishable (db : DB) (now : Int) (u : User)
    (hfail : selectPasswordByEmail db u.email = none ∨
      ∃ pw, selectPasswordByEmail db u.email = some pw ∧
        CheckPasswordHash u.password pw = false) :
    u.ValidateCredentials db = .error "invalid credentials" ∧
    login db now (some u) = [(401, .err "Invalid credentials")] := by
  have hvc : u.ValidateCredentials db = .error "invalid credentials" := by
    rcases hfail with hnone | ⟨pw, hsome, hbad⟩
    · simp [User.ValidateCredentials, hnone]
    · simp [User.ValidateCredentials, hsome, hbad]
  exact ⟨hvc, by simp [login, hvc]⟩

/-- C7 witness: the theorem applied at `dbTwoUsers` for both causes —
an email with no stored row, and the stored user 1 with a wrong
password — giving the identical error and the identical 401 response. -/
theorem c7_witness :
    (User.ValidateCredentials dbTwoUsers { id := 0, email := "ghost@x.com", password := "pw" }
        = .error "invalid credentials" ∧
      login dbTwoUsers 0 (some { id := 0, email := "ghost@x.com", password := "pw" })
        = [(401, .err "Invalid credentials")]) ∧
    (User.ValidateCredentials dbTwoUsers { id := 0, email := "u1@x.com", password := "wrong" }
        = .error "invalid credentials" ∧
      login dbTwoUsers 0 (some { id := 0, email := "u1@x.com", password := "wrong" })
        = [(401, .err "Invalid credentials")]) :=
  ⟨c7_invalid_credentials_indistinguishable dbTwoUsers 0
      { id := 0, email := "ghost@x.com", password := "pw" } (Or.inl (by decide)),
   c7_invalid_credentials_indistinguishable dbTwoUsers 0
      { id := 0, email := "u1@x.com", password := "wrong" }
      (Or.inr ⟨"bcrypt$pw1", by decide, by decide⟩)⟩

/-- C8 counterexample: the claim says an authenticated
`DELETE /events/:id` with a well-formed id matching no stored event has
the store delete return no error and the endpoint respond with a
success response.  At a concrete store without event 999, the handler
returns early on the failed lookup: it never reaches the store delete
and writes nothing at all — in particular no success message — leaving
only the framework default empty 200. -/
theorem c8_counterexample_no_response_written :
    deleteEvent dbTwoUsers (some 999) 1 = (dbTwoUsers, []) ∧
    ¬ ((200, Body.msg "Event deleted successfully")
        ∈ (deleteEvent dbTwoUsers (some 999) 1).2) := by
  decide

/-- C8 amended: for a well-formed id matching no stored event, the
`DELETE /events/:id` handler returns early on the failed lookup — the
store delete is never executed, the database is unchanged, and no
response body is written (the framework default is an empty 200, so the
client still sees no error); the store-level delete itself, invoked
directly on such an id, does return no error and leaves the events
unchanged. -/
theorem c8_delete_missing_id (db : DB) (id callerId : Int)
    (habs : GetEventByID db id = none)
    (hreg : db.regs.any (fun r => r.eventId == id) = false) :
    deleteEvent db (some id) callerId = (db, []) ∧
    finalStatus (deleteEvent db (some id) callerId).2 = 200 ∧
    ∃ db2, eventsDelete db id = .ok db2 ∧ db2.events = db.events := by
  have hdel : deleteEvent db (some id) callerId = (db, []) := by
    simp [deleteEvent, habs]
  refine ⟨hdel, by rw [hdel]; rfl, ?_⟩
  have hfilter : db.events.filter (fun r => !(r.id == id)) = db.events := by
    apply List.filter_eq_self.mpr
    intro r hr
    have := List.find?_eq_none.mp habs r hr
    simpa using this
  exact ⟨{ db with events := db.events.filter (fun r => !(r.id == id)) },
    by simp [eventsDelete, hreg], by simpa using hfilter⟩

/-- C8 witness: the amended theorem applied at `dbTwoUsers` with the
absent id 999. -/
theorem c8_witness :
    deleteEvent dbTwoUsers (some 999) 2 = (dbTwoUsers, []) ∧
    finalStatus (deleteEvent dbTwoUsers (some 999) 2).2 = 200 ∧
    ∃ db2, eventsDelete dbTwoUsers 999 = .ok db2 ∧ db2.events = dbTwoUsers.events :=
  c8_delete_missing_id dbTwoUsers 999 2 (by decide) (by decide)

/-- C9: for a `(eventId, userId)` pair referencing existing rows and
not yet registered, the first registration succeeds (appending exactly
one copy of the pair), and repeating it on the resulting store fails
with the UNIQUE-index conflict, a constructor distinct from the
foreign-key error — so duplicates are distinguishable from other
failures and the pair stays unique. -/
theorem c9_duplicate_registration_conflict (db : DB) (e : EventRow) (uid : Int)
    (hev : eventExists db e.id = true)
    (huser : userExists db uid = true)
    (hnew : regExists db e.id uid = false) :
    ∃ db2, e.Register db uid = .ok db2 ∧
      EventRow.Register db2 e uid = .error .uniqueViolation ∧
      SqlErr.uniqueViolation ≠ SqlErr.fkViolation ∧
      db2.regs.countP (fun r => r.eventId == e.id && r.userId == uid) = 1 := by
  refine ⟨{ db with regs := db.regs ++ [⟨e.id, uid⟩] }, ?_, ?_, by decide, ?_⟩
  · simp [EventRow.Register, regsInsert, hev, huser, hnew]
  · have hev2 : eventExists { db with regs := db.regs ++ [⟨e.id, uid⟩] } e.id = true := hev
    have huser2 : userExists { db with regs := db.regs ++ [⟨e.id, uid⟩] } uid = true := huser
    have hdup : regExists { db with regs := db.regs ++ [⟨e.id, uid⟩] } e.id uid = true := by
      simp [regExists]
    simp [EventRow.Register, regsInsert, hev2, huser2, hdup]
  · have hany : db.regs.any (fun r => r.eventId == e.id && r.userId == uid) = false := hnew
    have hzero : db.regs.countP (fun r => r.eventId == e.id && r.userId == uid) = 0 := by
      rw [List.countP_eq_zero]
      intro r hr
      exact List.any_eq_false.mp hany r hr
    simp [List.countP_append, hzero, List.countP_cons]

/-- C9 witness: the theorem applied at `dbTwoUsers` for event 1 and
user 2 (both exist; the pair is unregistered). -/
theorem c9_witness :
    ∃ db2, EventRow.Register dbTwoUsers storedEvent1 2 = .ok db2 ∧
      EventRow.Register db2 storedEvent1 2 = .error .uniqueViolation ∧
      SqlErr.uniqueViolation ≠ SqlErr.fkViolation ∧
      db2.regs.countP (fun r => r.eventId == storedEvent1.id && r.userId == 2) = 1 :=
  c9_duplicate_registration_conflict dbTwoUsers storedEvent1 2
    (by decide) (by decide) (by decide)

/-- C10: in `PUT /events/:id` the owner written to the store comes from
the client-supplied body, not from the bound caller: whenever the owner
check passes and the body binds, a successful update leaves every row
under the path id with the body's `user_id`; the closed conjuncts show
a concrete successful update by owner 1 that changes the stored owner
to 2 (and the binding model records that an omitted `user_id` stays the
zero value 0). -/
theorem c10_update_owner_from_body (db : DB) (id callerId : Int) (ev e : EventRow)
    (hget : GetEventByID db id = some ev) (hown : ev.userId = callerId) :
    (∀ db2, EventRow.Update db { e with id := id } = .ok db2 →
      updateEvents db (some id) callerId (.valid e)
        = (db2, [(200, .msg "Event updated successfully")]) ∧
      ∀ r ∈ db2.events, r.id = id → r.userId = e.userId) ∧
    updateEvents dbTwoUsers (some 1) 1 (.valid bodyOwner2)
      = (dbTwoUsersUpdated, [(200, .msg "Event updated successfully")]) ∧
    dbTwoUsersUpdated.events.map EventRow.userId = [2] ∧
    (2 : Int) ≠ 1 := by
  refine ⟨?_, by decide, by decide, by decide⟩
  intro db2 hupd
  have hbeq : (ev.userId == callerId) = true := by simp [hown]
  constructor
  · simp [updateEvents, hget, hbeq, hupd]
  · intro r hr hid
    have hdb2 : db2.events = db.events.map
        (fun r0 => if r0.id == ({ e with id := id } : EventRow).id
          then { ({ e with id := id } : EventRow) with id := r0.id } else r0) := by
      unfold EventRow.Update eventsUpdate at hupd
      split at hupd
      · exact absurd hupd (by simp)
      · cases hupd
        rfl
    rw [hdb2] at hr
    obtain ⟨r0, hr0, hfr⟩ := List.mem_map.mp hr
    by_cases hc : (r0.id == ({ e with id := id } : EventRow).id) = true
    · rw [if_pos hc] at hfr
      rw [← hfr]
    · rw [if_neg (by simpa using hc)] at hfr
      subst hfr
      exact absurd (by simpa using hid) (by simpa using hc)

/-- C10 witness: the general clause of the theorem applied at
`dbTwoUsers`, event 1, owner-caller 1, and the body naming user 2. -/
theorem c10_witness :
    updateEvents dbTwoUsers (some 1) 1 (.valid bodyOwner2)
      = (dbTwoUsersUpdated, [(200, .msg "Event updated successfully")]) ∧
    ∀ r ∈ dbTwoUsersUpdated.events, r.id = 1 → r.userId = bodyOwner2.userId :=
  (c10_update_owner_from_body dbTwoUsers 1 1 storedEvent1 bodyOwner2
      (by decide) (by decide)).1 dbTwoUsersUpdated (by rfl)

end RestApi
